import Mathlib

/- Formal model of src/verify_home.py: a Playwright script that drives a
   headless browser against a local web application and checks that a given
   piece of text was removed from the home view.  External calls (browser
   launch, context and page creation, navigation, waits, clicks,
   screenshots) are modelled by an environment oracle fixing the outcome of
   each call; the script is embedded as a function from that environment to
   the ordered trace of observable effects together with the final outcome
   (normal return or a propagated error). -/

namespace VerifyHome

/-- Payload distinguishing the kinds of errors the automation collaborator
can raise: a wait timeout (with its millisecond budget), a visibility
assertion failure, or any other error tagged by an arbitrary code. -/
inductive Err where
  | timeout (ms : Nat)
  | assertionFailed
  | other (n : Nat)
deriving DecidableEq, Repr

/-- A raised Python error value.  `isExc` records whether the value is an
instance of `Exception`: the bare `except:` on line 20 of the source catches
every raised value, while the outer `except Exception` on line 37 catches
only values with `isExc = true` (a `KeyboardInterrupt` or `SystemExit` has
`isExc = false`). -/
structure PyErr where
  isExc : Bool
  err : Err
deriving DecidableEq, Repr

/-- Observable effects of one run, in program order.  An event is recorded
when the corresponding external call is made; `shotHome` is recorded only
when the success-path screenshot call returns (the file
verification_home.png was successfully written), `shotError` when the
handler writes verification_error.png, `printFail` when the handler prints
the failure message of line 38, `close` when `browser.close()` runs. -/
inductive Event where
  | navigate
  | waitButton
  | clickBtn
  | headingCheck
  | forbiddenCheck
  | shotHome
  | shotError
  | printFail
  | close
deriving DecidableEq, Repr

/-- Environment oracle: the outcome of every external call of one run.
`none` means the call returns normally; `some e` means it raises `e`.
For the heading wait (line 25), returning normally is exactly the heading
with name "Welcome to Jubee's World!" becoming visible within 15000 ms.
For the button wait (line 17), returning normally is exactly the button
named "Start Learning" becoming visible within 5000 ms.  The forbidden-text
locator of line 29 matches an element iff `forbiddenExists`; that element is
visible at check time iff `forbiddenVisible`.  Progress prints other than
the failure message, the handler screenshot and `browser.close()` are
modelled as never failing. -/
structure Env where
  launchErr : Option PyErr
  newContextErr : Option PyErr
  newPageErr : Option PyErr
  navErr : Option PyErr
  buttonWaitErr : Option PyErr
  clickErr : Option PyErr
  headingErr : Option PyErr
  forbiddenExists : Bool
  forbiddenVisible : Bool
  shotHomeErr : Option PyErr
deriving DecidableEq, Repr

/-- The error raised by `expect(removed_text).not_to_be_visible()` on
line 30 when the forbidden text is visible: a visibility assertion failure,
an instance of `Exception`. -/
def forbiddenFailErr : PyErr := ⟨true, Err.assertionFailed⟩

/-- The error raised by the heading wait of line 25 when the heading never
becomes visible within its 15000 ms budget. -/
def headingTimeoutErr : PyErr := ⟨true, Err.timeout 15000⟩

/-- The error raised by `start_btn.wait_for(state="visible", timeout=5000)`
on line 17 when the button never becomes visible within 5000 ms. -/
def buttonTimeoutErr : PyErr := ⟨true, Err.timeout 5000⟩

/-- The body of the outer `try` of `verify_home_text_removed`
(lines 10 to 35 of src/verify_home.py): navigate, optional-button block,
heading wait, forbidden-text check, success screenshot.  The inner
`try ... except:` of lines 15 to 21 is a bare except: any error raised by
the button wait or by the click itself is caught and suppressed (only a
print differs between its branches), so the observable outcome never
depends on `clickErr`, and after the block execution always proceeds to
the heading wait.  Returns the event trace of the body together with its
outcome. -/
def runBody (env : Env) : List Event × Except PyErr Unit :=
  match env.navErr with
  | some e => ([Event.navigate], Except.error e)
  | none =>
    let btnTrace : List Event :=
      match env.buttonWaitErr with
      | some _ => [Event.navigate, Event.waitButton]
      | none => [Event.navigate, Event.waitButton, Event.clickBtn]
    match env.headingErr with
    | some e => (btnTrace ++ [Event.headingCheck], Except.error e)
    | none =>
      let tr := btnTrace ++ [Event.headingCheck, Event.forbiddenCheck]
      if env.forbiddenExists && env.forbiddenVisible then
        (tr, Except.error forbiddenFailErr)
      else
        match env.shotHomeErr with
        | some e => (tr, Except.error e)
        | none => (tr ++ [Event.shotHome], Except.ok ())

/-- One full run of `verify_home_text_removed` (lines 3 to 42).  Lines 5
to 7 (launch, `new_context`, `new_page`) execute before the `try` of line 9,
so an error raised there propagates without the `finally` of line 41 ever
running, and `browser.close()` is not called.  Once the `try` is entered:
on normal completion the `finally` closes the browser; on an error that is
an instance of `Exception` the handler of lines 37 to 40 prints the failure
message, writes verification_error.png, re-raises the same error value, and
the `finally` closes the browser before the error propagates; on an error
that is not an `Exception` only the `finally` runs before propagation. -/
def run (env : Env) : List Event × Except PyErr Unit :=
  match env.launchErr with
  | some e => ([], Except.error e)
  | none =>
    match env.newContextErr with
    | some e => ([], Except.error e)
    | none =>
      match env.newPageErr with
      | some e => ([], Except.error e)
      | none =>
        match runBody env with
        | (tr, Except.ok ()) => (tr ++ [Event.close], Except.ok ())
        | (tr, Except.error e) =>
          if e.isExc then
            (tr ++ [Event.printFail, Event.shotError, Event.close],
              Except.error e)
          else
            (tr ++ [Event.close], Except.error e)

/-- Exit status of the process when the script is invoked as a program
(lines 44 to 45): the Python interpreter exits with status 0 when
`verify_home_text_removed()` returns normally and with a non-zero status
when it ends with an uncaught error. -/
def mainExitCode (env : Env) : Nat :=
  match (run env).2 with
  | Except.ok () => 0
  | Except.error _ => 1

/-- The browser, context and page of lines 5 to 7 were all acquired without
error, so the guarded region of lines 9 to 42 is entered. -/
def setupOk (env : Env) : Prop :=
  env.launchErr = none ∧ env.newContextErr = none ∧ env.newPageErr = none

instance (env : Env) : Decidable (setupOk env) := by
  unfold setupOk
  infer_instance

/-- The outcome of the `try` body as a function of the environment alone:
only navigation, the heading wait, the forbidden-text state and the
success-screenshot call decide it.  The optional-button block never
contributes, since its bare `except:` suppresses every error raised in it. -/
def bodyOutcome (env : Env) : Except PyErr Unit :=
  match env.navErr with
  | some e => Except.error e
  | none =>
    match env.headingErr with
    | some e => Except.error e
    | none =>
      if env.forbiddenExists && env.forbiddenVisible then
        Except.error forbiddenFailErr
      else
        match env.shotHomeErr with
        | some e => Except.error e
        | none => Except.ok ()

lemma runBody_snd (env : Env) : (runBody env).2 = bodyOutcome env := by
  rcases env with ⟨l, c, p, nav, bw, ck, hd, fe, fv, sh⟩
  cases nav <;> cases bw <;> cases hd <;> cases sh <;> cases fe <;> cases fv <;>
    simp [runBody, bodyOutcome]

lemma runBody_no_handler_events (env : Env) :
    Event.shotError ∉ (runBody env).1 ∧ Event.printFail ∉ (runBody env).1 ∧
      Event.close ∉ (runBody env).1 := by
  rcases env with ⟨l, c, p, nav, bw, ck, hd, fe, fv, sh⟩
  cases nav <;> cases bw <;> cases hd <;> cases sh <;> cases fe <;> cases fv <;>
    simp [runBody]

lemma runBody_shotHome_iff (env : Env) :
    Event.shotHome ∈ (runBody env).1 ↔ (runBody env).2 = Except.ok () := by
  rcases env with ⟨l, c, p, nav, bw, ck, hd, fe, fv, sh⟩
  cases nav <;> cases bw <;> cases hd <;> cases sh <;> cases fe <;> cases fv <;>
    simp [runBody]

lemma run_snd_of_setup (env : Env) (h1 : env.launchErr = none)
    (h2 : env.newContextErr = none) (h3 : env.newPageErr = none) :
    (run env).2 = (runBody env).2 := by
  rcases env with ⟨l, c, p, nav, bw, ck, hd, fe, fv, sh⟩
  cases h1; cases h2; cases h3
  rcases hB : runBody ⟨none, none, none, nav, bw, ck, hd, fe, fv, sh⟩
    with ⟨tr, res⟩
  rcases res with e | u
  · by_cases he : e.isExc <;> simp [run, hB, he]
  · simp [run, hB]

/-- A run in which the click on the landing button itself raises an error:
every acquisition step, navigation, the heading wait, the forbidden-text
check and the success screenshot succeed, the button becomes visible within
5000 ms, but `start_btn.click()` raises an ordinary `Exception`. -/
def envClickFails : Env :=
  { launchErr := none, newContextErr := none, newPageErr := none,
    navErr := none, buttonWaitErr := none,
    clickErr := some ⟨true, Err.other 7⟩, headingErr := none,
    forbiddenExists := false, forbiddenVisible := false, shotHomeErr := none }

/-- A run in which `browser.new_context()` on line 6 raises after the
browser was launched; everything else would have succeeded. -/
def envContextFails : Env :=
  { launchErr := none, newContextErr := some ⟨true, Err.other 1⟩,
    newPageErr := none, navErr := none, buttonWaitErr := none,
    clickErr := none, headingErr := none, forbiddenExists := false,
    forbiddenVisible := false, shotHomeErr := none }

/-- A fully successful run: every external call returns normally, the
landing button is visible within 5000 ms, the heading is visible within
15000 ms, and no element matches the forbidden text. -/
def envAllOk : Env :=
  { launchErr := none, newContextErr := none, newPageErr := none,
    navErr := none, buttonWaitErr := none, clickErr := none,
    headingErr := none, forbiddenExists := false, forbiddenVisible := false,
    shotHomeErr := none }

/-- A run in which `page.goto` raises; everything else would have
succeeded. -/
def envNavFails : Env :=
  { launchErr := none, newContextErr := none, newPageErr := none,
    navErr := some ⟨true, Err.other 3⟩, buttonWaitErr := none,
    clickErr := none, headingErr := none, forbiddenExists := false,
    forbiddenVisible := false, shotHomeErr := none }

/-- A run in which the heading wait raises an ordinary `Exception`;
everything else would have succeeded. -/
def envHeadingFails : Env :=
  { launchErr := none, newContextErr := none, newPageErr := none,
    navErr := none, buttonWaitErr := none, clickErr := none,
    headingErr := some ⟨true, Err.other 5⟩, forbiddenExists := false,
    forbiddenVisible := false, shotHomeErr := none }

/-- C1, counterexample.  The claim states that an error raised by the click
on the landing button is not suppressed locally and reaches the fatal
top-level handling path.  In the run `envClickFails` the click raises an
ordinary `Exception`, yet the run completes normally: the error never
reaches the top-level handler (no verification_error.png is written, the
overall outcome is a normal return), because the bare `except:` of line 20
also wraps `start_btn.click()`. -/
theorem claim1_click_error_is_suppressed :
    (run envClickFails).2 = Except.ok () ∧
      Event.shotError ∉ (run envClickFails).1 ∧
      Event.clickBtn ∈ (run envClickFails).1 := by
  refine ⟨rfl, by decide, by decide⟩

/-- C1, amended.  The inner bare `except:` of lines 15 to 21 suppresses
every error raised inside the optional-button block — the 5000 ms wait
(whether or not its error is a timeout) and the click itself — so the run's
outcome never depends on those two outcomes (first conjunct).  Every error
raised elsewhere in the `try` body — navigation, the heading wait, the
forbidden-text assertion, the success screenshot — is not suppressed
locally: it becomes the outcome of the `try` body and thus reaches the
top-level handling (remaining conjuncts). -/
theorem claim1_suppression_scope (env : Env) (e : PyErr) :
    ((run env).2 = (run { env with buttonWaitErr := none, clickErr := none }).2) ∧
    (env.navErr = some e → (runBody env).2 = Except.error e) ∧
    (env.navErr = none → env.headingErr = some e →
      (runBody env).2 = Except.error e) ∧
    (env.navErr = none → env.headingErr = none → env.forbiddenExists = true →
      env.forbiddenVisible = true →
      (runBody env).2 = Except.error forbiddenFailErr) ∧
    (env.navErr = none → env.headingErr = none →
      (env.forbiddenExists && env.forbiddenVisible) = false →
      env.shotHomeErr = some e → (runBody env).2 = Except.error e) := by
  rcases env with ⟨l, c, p, nav, bw, ck, hd, fe, fv, sh⟩
  refine ⟨?_, ?_, ?_, ?_, ?_⟩
  · cases l with
    | some e1 => simp [run]
    | none =>
      cases c with
      | some e2 => simp [run]
      | none =>
        cases p with
        | some e3 => simp [run]
        | none =>
          rw [run_snd_of_setup _ rfl rfl rfl, run_snd_of_setup _ rfl rfl rfl,
            runBody_snd, runBody_snd]
          cases nav <;> cases hd <;> cases sh <;> cases fe <;> cases fv <;>
            simp [bodyOutcome]
  · intro h
    cases h
    simp [runBody]
  · intro h1 h2
    cases h1; cases h2
    cases bw <;> simp [runBody]
  · intro h1 h2 h3 h4
    cases h1; cases h2; cases h3; cases h4
    cases bw <;> cases sh <;> simp [runBody]
  · intro h1 h2 h3 h4
    cases h1; cases h2; cases h4
    cases bw <;> simp [runBody, h3]

/-- C1, witness for the amended theorem: with navigation raising a concrete
error, the body's outcome is that error. -/
theorem claim1_suppression_scope_witness :
    (runBody envNavFails).2 = Except.error ⟨true, Err.other 3⟩ :=
  (claim1_suppression_scope envNavFails ⟨true, Err.other 3⟩).2.1 rfl

/-- C2.  Whenever the `try` body ends with an error `e` that is an instance
of `Exception` (and the browser, context and page were acquired, so the
guarded region was entered), the run extends the body's trace with exactly
the failure log line, the diagnostic screenshot to verification_error.png
and the browser close — in that order — and the overall outcome is that
very same error `e`, re-raised to the caller after the close. -/
theorem claim2_fatal_handler (env : Env) (e : PyErr)
    (h1 : env.launchErr = none) (h2 : env.newContextErr = none)
    (h3 : env.newPageErr = none)
    (hb : (runBody env).2 = Except.error e) (he : e.isExc = true) :
    run env = ((runBody env).1 ++
      [Event.printFail, Event.shotError, Event.close], Except.error e) := by
  rcases env with ⟨l, c, p, nav, bw, ck, hd, fe, fv, sh⟩
  cases h1; cases h2; cases h3
  rcases hB : runBody ⟨none, none, none, nav, bw, ck, hd, fe, fv, sh⟩
    with ⟨tr, res⟩
  rw [hB] at hb
  simp at hb
  cases hb
  simp [run, hB, he]

/-- C2, witness: a run whose heading wait raises a concrete `Exception`
reaches the fatal handler, writes verification_error.png after the failure
log line, closes the browser last, and re-raises the same error. -/
theorem claim2_fatal_handler_witness :
    run envHeadingFails = ((runBody envHeadingFails).1 ++
      [Event.printFail, Event.shotError, Event.close],
      Except.error ⟨true, Err.other 5⟩) :=
  claim2_fatal_handler envHeadingFails ⟨true, Err.other 5⟩ rfl rfl rfl rfl rfl

/-- C3, counterexample.  The claim states that the browser is closed exactly
once on every exit path, including errors raised while acquiring the
browsing context or page after the browser has been launched.  In the run
`envContextFails`, `browser.new_context()` raises after a successful launch;
the error propagates, and `browser.close()` is never called, because
lines 5 to 7 execute before the `try`/`finally` of lines 9 to 42. -/
theorem claim3_context_error_skips_close :
    (run envContextFails).2 = Except.error ⟨true, Err.other 1⟩ ∧
      ((run envContextFails).1.count Event.close) = 0 := by
  refine ⟨rfl, by decide⟩

/-- C3, amended.  The browser is closed exactly once on every exit path of
the guarded region: whenever launch, `new_context` and `new_page` all
succeed, `browser.close()` runs exactly once, on success and on failure
alike.  When launch, `new_context` or `new_page` raises, the script never
calls `browser.close()`. -/
theorem claim3_close_exactly_once (env : Env) :
    (env.launchErr = none → env.newContextErr = none →
      env.newPageErr = none → ((run env).1.count Event.close) = 1) ∧
    (env.launchErr.isSome ∨ env.newContextErr.isSome ∨ env.newPageErr.isSome →
      ((run env).1.count Event.close) = 0) := by
  rcases env with ⟨l, c, p, nav, bw, ck, hd, fe, fv, sh⟩
  constructor
  · intro h1 h2 h3
    cases h1; cases h2; cases h3
    rcases hB : runBody ⟨none, none, none, nav, bw, ck, hd, fe, fv, sh⟩
      with ⟨tr, res⟩
    have hclose : Event.close ∉ tr := by
      have h := (runBody_no_handler_events
        ⟨none, none, none, nav, bw, ck, hd, fe, fv, sh⟩).2.2
      rw [hB] at h
      exact h
    have htr : tr.count Event.close = 0 := List.count_eq_zero.mpr hclose
    rcases res with e | u
    · by_cases he : e.isExc <;>
        simp [run, hB, he, List.count_append, htr]
    · simp [run, hB, List.count_append, htr]
  · intro h
    rcases h with h | h | h
    · rcases l with _ | e
      · simp at h
      · simp [run]
    · rcases c with _ | e
      · simp at h
      · cases l <;> simp [run]
    · rcases p with _ | e
      · simp at h
      · cases l <;> cases c <;> simp [run]

/-- C3, witness for the amended theorem: a fully successful concrete run
closes the browser exactly once. -/
theorem claim3_close_exactly_once_witness :
    ((run envAllOk).1.count Event.close) = 1 :=
  (claim3_close_exactly_once envAllOk).1 rfl rfl rfl

/-- A run in which the heading with name "Welcome to Jubee's World!" never
becomes visible within 15000 ms; everything else succeeds or is absent. -/
def envHeadingNotVisible : Env :=
  { launchErr := none, newContextErr := none, newPageErr := none,
    navErr := none, buttonWaitErr := none, clickErr := none,
    headingErr := some headingTimeoutErr, forbiddenExists := false,
    forbiddenVisible := false, shotHomeErr := none }

/-- A run in which the landing button never becomes visible within 5000 ms
(the wait of line 17 raises its timeout); everything else succeeds. -/
def envNoButton : Env :=
  { launchErr := none, newContextErr := none, newPageErr := none,
    navErr := none, buttonWaitErr := some buttonTimeoutErr, clickErr := none,
    headingErr := none, forbiddenExists := false, forbiddenVisible := false,
    shotHomeErr := none }

/-- A run in which the forbidden text "Apple-smooth journey, kid-first" is
present and visible at check time, while the heading check passes. -/
def envForbiddenVisible : Env :=
  { launchErr := none, newContextErr := none, newPageErr := none,
    navErr := none, buttonWaitErr := none, clickErr := none,
    headingErr := none, forbiddenExists := true, forbiddenVisible := true,
    shotHomeErr := none }

/-- A run in which navigation is interrupted by an error that is not an
instance of `Exception` (such as a `KeyboardInterrupt`). -/
def envInterrupted : Env :=
  { launchErr := none, newContextErr := none, newPageErr := none,
    navErr := some ⟨false, Err.other 9⟩, buttonWaitErr := none,
    clickErr := none, headingErr := none, forbiddenExists := false,
    forbiddenVisible := false, shotHomeErr := none }

/-- C4.  In a run whose browser infrastructure functions (acquisition,
navigation and the success screenshot call all return normally), if after
the optional-button step the heading becomes visible within 15000 ms
(the wait of line 25 returns) and the forbidden text is not visible (no
matching element is both present and visible), then the run completes
without error and verification_home.png is written. -/
theorem claim4_success_path (env : Env) (h1 : env.launchErr = none)
    (h2 : env.newContextErr = none) (h3 : env.newPageErr = none)
    (hn : env.navErr = none) (hh : env.headingErr = none)
    (hf : (env.forbiddenExists && env.forbiddenVisible) = false)
    (hs : env.shotHomeErr = none) :
    (run env).2 = Except.ok () ∧ Event.shotHome ∈ (run env).1 := by
  rcases env with ⟨l, c, p, nav, bw, ck, hd, fe, fv, sh⟩
  cases h1; cases h2; cases h3; cases hn; cases hh; cases hs
  cases bw <;> cases fe <;> cases fv <;> simp_all [run, runBody]

/-- C4, witness: the fully successful concrete run returns normally and
writes verification_home.png. -/
theorem claim4_success_path_witness :
    (run envAllOk).2 = Except.ok () ∧ Event.shotHome ∈ (run envAllOk).1 :=
  claim4_success_path envAllOk rfl rfl rfl rfl rfl rfl rfl

/-- C5.  If the heading never becomes visible within 15000 ms (the wait of
line 25 raises its timeout error), the run fails: verification_error.png is
written, the same error propagates to the caller, and the process exit code
of a program invocation is non-zero; on any successful run the exit code
is 0. -/
theorem claim5_heading_timeout_fails (env : Env) (h1 : env.launchErr = none)
    (h2 : env.newContextErr = none) (h3 : env.newPageErr = none)
    (hn : env.navErr = none) (hh : env.headingErr = some headingTimeoutErr) :
    Event.shotError ∈ (run env).1 ∧
      (run env).2 = Except.error headingTimeoutErr ∧
      mainExitCode env ≠ 0 ∧
      (∀ env2 : Env, (run env2).2 = Except.ok () → mainExitCode env2 = 0) := by
  rcases env with ⟨l, c, p, nav, bw, ck, hd, fe, fv, sh⟩
  cases h1; cases h2; cases h3; cases hn; cases hh
  refine ⟨?_, ?_, ?_, ?_⟩
  · cases bw <;> simp [run, runBody, headingTimeoutErr]
  · cases bw <;> simp [run, runBody, headingTimeoutErr]
  · cases bw <;> simp [mainExitCode, run, runBody, headingTimeoutErr]
  · intro env2 h
    simp [mainExitCode, h]

/-- C5, witness: the concrete run whose heading never becomes visible
writes verification_error.png and makes a program invocation exit
non-zero. -/
theorem claim5_heading_timeout_fails_witness :
    Event.shotError ∈ (run envHeadingNotVisible).1 ∧
      mainExitCode envHeadingNotVisible ≠ 0 := by
  have h := claim5_heading_timeout_fails envHeadingNotVisible
    rfl rfl rfl rfl rfl
  exact ⟨h.1, h.2.2.1⟩

/-- C6.  When the landing button becomes visible within 5000 ms (the wait
of line 17 returns normally), the button is clicked exactly once in the
whole run, and the click is the third recorded call, strictly before the
heading visibility check, which is the fourth. -/
theorem claim6_click_once_before_heading (env : Env)
    (h1 : env.launchErr = none) (h2 : env.newContextErr = none)
    (h3 : env.newPageErr = none) (hn : env.navErr = none)
    (hb : env.buttonWaitErr = none) :
    ((run env).1.count Event.clickBtn) = 1 ∧
      (run env).1.take 4 = [Event.navigate, Event.waitButton,
        Event.clickBtn, Event.headingCheck] := by
  rcases env with ⟨l, c, p, nav, bw, ck, hd, fe, fv, sh⟩
  cases h1; cases h2; cases h3; cases hn; cases hb
  rcases hd with _ | ⟨_ | _, e1⟩ <;> rcases sh with _ | ⟨_ | _, e2⟩ <;>
    cases fe <;> cases fv <;> simp [run, runBody, forbiddenFailErr]

/-- C6, witness: in the fully successful concrete run the click is recorded
exactly once, before the heading check. -/
theorem claim6_click_once_before_heading_witness :
    ((run envAllOk).1.count Event.clickBtn) = 1 ∧
      (run envAllOk).1.take 4 = [Event.navigate, Event.waitButton,
        Event.clickBtn, Event.headingCheck] :=
  claim6_click_once_before_heading envAllOk rfl rfl rfl rfl rfl

/-- C7.  When the landing button is absent or never becomes visible within
5000 ms — the wait of line 17 raises, with a timeout or any other error —
no click occurs anywhere in the run, and execution proceeds directly from
the button wait to the heading check: the heading check is the third
recorded call, immediately after the wait. -/
theorem claim7_no_button_no_click (env : Env) (e : PyErr)
    (h1 : env.launchErr = none) (h2 : env.newContextErr = none)
    (h3 : env.newPageErr = none) (hn : env.navErr = none)
    (hb : env.buttonWaitErr = some e) :
    ((run env).1.count Event.clickBtn) = 0 ∧
      (run env).1.take 3 = [Event.navigate, Event.waitButton,
        Event.headingCheck] := by
  rcases env with ⟨l, c, p, nav, bw, ck, hd, fe, fv, sh⟩
  cases h1; cases h2; cases h3; cases hn; cases hb
  rcases hd with _ | ⟨_ | _, e1⟩ <;> rcases sh with _ | ⟨_ | _, e2⟩ <;>
    cases fe <;> cases fv <;> simp [run, runBody, forbiddenFailErr]

/-- C7, witness: in the concrete run whose landing button never appears, no
click is recorded and the heading check directly follows the wait. -/
theorem claim7_no_button_no_click_witness :
    ((run envNoButton).1.count Event.clickBtn) = 0 ∧
      (run envNoButton).1.take 3 = [Event.navigate, Event.waitButton,
        Event.headingCheck] :=
  claim7_no_button_no_click envNoButton buttonTimeoutErr rfl rfl rfl rfl rfl

/-- C8.  With the heading check passed, the forbidden-text assertion of
line 30 passes both when no element matches the text and when a matching
element exists but is hidden (in either case the run completes normally,
provided the screenshot write itself succeeds), and the run fails exactly
when the text is visible at check time — even though the heading assertion
already succeeded — with the assertion error propagating and
verification_error.png written. -/
theorem claim8_forbidden_check (env : Env) (h1 : env.launchErr = none)
    (h2 : env.newContextErr = none) (h3 : env.newPageErr = none)
    (hn : env.navErr = none) (hh : env.headingErr = none) :
    (env.forbiddenExists = false → env.shotHomeErr = none →
      (run env).2 = Except.ok ()) ∧
    (env.forbiddenExists = true → env.forbiddenVisible = false →
      env.shotHomeErr = none → (run env).2 = Except.ok ()) ∧
    (env.forbiddenExists = true → env.forbiddenVisible = true →
      (run env).2 = Except.error forbiddenFailErr ∧
        Event.shotError ∈ (run env).1) := by
  rcases env with ⟨l, c, p, nav, bw, ck, hd, fe, fv, sh⟩
  cases h1; cases h2; cases h3; cases hn; cases hh
  refine ⟨?_, ?_, ?_⟩
  · intro hfe hs
    cases hfe; cases hs
    cases bw <;> cases fv <;> simp [run, runBody]
  · intro hfe hfv hs
    cases hfe; cases hfv; cases hs
    cases bw <;> simp [run, runBody]
  · intro hfe hfv
    cases hfe; cases hfv
    cases bw <;> cases sh <;> simp [run, runBody, forbiddenFailErr]

/-- C8, witness: in the concrete run where the forbidden text is present
and visible, the run fails with the assertion error and writes
verification_error.png. -/
theorem claim8_forbidden_check_witness :
    (run envForbiddenVisible).2 = Except.error forbiddenFailErr ∧
      Event.shotError ∈ (run envForbiddenVisible).1 :=
  (claim8_forbidden_check envForbiddenVisible rfl rfl rfl rfl rfl).2.2 rfl rfl

/-- C9.  In any single run, verification_home.png is successfully written
only when the run ends normally (both assertions passed, success path),
verification_error.png is written only from the fatal handler (the run ends
with a propagated error that is an instance of `Exception`), and no run
writes both files. -/
theorem claim9_screenshot_exclusivity (env : Env) :
    (Event.shotHome ∈ (run env).1 → (run env).2 = Except.ok ()) ∧
    (Event.shotError ∈ (run env).1 →
      ∃ e, (run env).2 = Except.error e ∧ e.isExc = true) ∧
    ¬(Event.shotHome ∈ (run env).1 ∧ Event.shotError ∈ (run env).1) := by
  rcases env with ⟨l, c, p, nav, bw, ck, hd, fe, fv, sh⟩
  rcases l with _ | e1
  case some => simp [run]
  rcases c with _ | e2
  case some => simp [run]
  rcases p with _ | e3
  case some => simp [run]
  rcases hB : runBody ⟨none, none, none, nav, bw, ck, hd, fe, fv, sh⟩
    with ⟨tr, res⟩
  have hSE : Event.shotError ∉ tr := by
    have h := (runBody_no_handler_events
      ⟨none, none, none, nav, bw, ck, hd, fe, fv, sh⟩).1
    rw [hB] at h
    exact h
  have hSH : Event.shotHome ∈ tr ↔ res = Except.ok () := by
    have h := runBody_shotHome_iff
      ⟨none, none, none, nav, bw, ck, hd, fe, fv, sh⟩
    rw [hB] at h
    exact h
  rcases res with e | u
  · have hnotSH : Event.shotHome ∉ tr := by
      intro hmem
      exact absurd (hSH.mp hmem) (by simp)
    by_cases he : e.isExc <;>
      simp [run, hB, he, hSE, hnotSH, List.mem_append]
  · simp [run, hB, hSE, List.mem_append]

/-- C9, witness: the fully successful concrete run does not write both
screenshot files. -/
theorem claim9_screenshot_exclusivity_witness :
    ¬(Event.shotHome ∈ (run envAllOk).1 ∧
      Event.shotError ∈ (run envAllOk).1) :=
  (claim9_screenshot_exclusivity envAllOk).2.2

/-- C10.  When the `try` body ends with an error that is not an instance of
`Exception` (such as a `KeyboardInterrupt` during navigation, either
assertion, or the success screenshot), the handler of line 37 does not
match: no verification_error.png is written and no failure message is
printed, yet the `finally` still closes the browser — the close is the last
recorded call — before the same error propagates to the caller. -/
theorem claim10_base_error_path (env : Env) (e : PyErr)
    (h1 : env.launchErr = none) (h2 : env.newContextErr = none)
    (h3 : env.newPageErr = none) (hb : (runBody env).2 = Except.error e)
    (he : e.isExc = false) :
    run env = ((runBody env).1 ++ [Event.close], Except.error e) ∧
      Event.shotError ∉ (run env).1 ∧ Event.printFail ∉ (run env).1 ∧
      Event.close ∈ (run env).1 := by
  rcases env with ⟨l, c, p, nav, bw, ck, hd, fe, fv, sh⟩
  cases h1; cases h2; cases h3
  rcases hB : runBody ⟨none, none, none, nav, bw, ck, hd, fe, fv, sh⟩
    with ⟨tr, res⟩
  have hNH := runBody_no_handler_events
    ⟨none, none, none, nav, bw, ck, hd, fe, fv, sh⟩
  rw [hB] at hNH hb
  simp at hb
  cases hb
  simp [run, hB, he, List.mem_append, hNH.1, hNH.2.1]

/-- C10, witness: the concrete run interrupted during navigation by a
non-`Exception` error closes the browser and propagates the error without
writing verification_error.png or printing the failure message. -/
theorem claim10_base_error_path_witness :
    run envInterrupted = ((runBody envInterrupted).1 ++ [Event.close],
      Except.error ⟨false, Err.other 9⟩) ∧
      Event.shotError ∉ (run envInterrupted).1 ∧
      Event.printFail ∉ (run envInterrupted).1 ∧
      Event.close ∈ (run envInterrupted).1 :=
  claim10_base_error_path envInterrupted ⟨false, Err.other 9⟩
    rfl rfl rfl rfl rfl

end VerifyHome
